import Mathlib

/-!
Shallow embedding of the fitness-app backend core (trainer-client connection
state machine, set/volume computation engine, personal-record engine,
streak aggregator, profile capability model), translated from the Python
source under `authentication/`, `connections/` and `workouts/`.

Conventions of the embedding:
* Django model rows become Lean structures; querysets become `List`s.
* JSON set records (`sets_data`) become a structure of `Option` fields,
  since Python's `dict.get(key, default)` tolerates missing keys.
* Numeric JSON values are embedded as `Int` (the code performs plain
  arithmetic and comparisons on them, with no float-specific behaviour
  relevant to any property studied here).
* Dates and timestamps are abstract `Nat` tick values.
* A Django view returning an HTTP error becomes `Except ApiError`;
  a successful view returns the created/updated row and the new store.
-/

namespace FitnessApp

/-! ## Set/Volume computation engine (`workouts/models.py`, `ExerciseLog`) -/

/-- One entry of `ExerciseLog.sets_data`. Each JSON key that the engine
reads via `set_data.get(key, default)` is an `Option` field; `none` models
a missing key. -/
structure SetData where
  reps : Option Int
  weight : Option Int
  completed : Option Bool
  deriving Repr, DecidableEq

/-- `set_data.get('reps', 0)`. -/
def SetData.getReps (s : SetData) : Int := s.reps.getD 0

/-- `set_data.get('weight', 0)`. -/
def SetData.getWeight (s : SetData) : Int := s.weight.getD 0

/-- `set_data.get('completed', False)`. -/
def SetData.getCompleted (s : SetData) : Bool := s.completed.getD false

/-- `ExerciseLog.calculate_volume`: running total over the sets list,
adding `reps * weight` for each set whose `completed` flag is truthy. -/
def calculate_volume (sets_data : List SetData) : Int :=
  sets_data.foldl
    (fun total s =>
      if s.getCompleted then total + s.getReps * s.getWeight else total) 0

/-- `ExerciseLog.get_completed_sets_count`. -/
def get_completed_sets_count (sets_data : List SetData) : Nat :=
  (sets_data.filter SetData.getCompleted).length

/-- `ExerciseLog.get_max_weight`: the list comprehension builds the weights
of completed sets; `max(weights) if weights else 0` is a left fold of
`max` over a nonempty list, and `0` otherwise. -/
def get_max_weight (sets_data : List SetData) : Int :=
  let weights := (sets_data.filter SetData.getCompleted).map SetData.getWeight
  match weights with
  | [] => 0
  | w :: ws => ws.foldl max w

/-! ## Streak aggregator (`workouts/views.py`, `calculate_streak`) -/

/-- The body of `calculate_streak`'s `while True` loop.  `hasLog k` tells
whether a `WorkoutLog` of this user exists dated exactly `k` days before
today; `streak` and `back` mirror the Python locals `streak` and
`today - current_date` (in days).  The loop increments both together and
breaks either at the first day without a log or once
`(today - current_date).days > 365`.  `fuel` is a structural bound only:
the loop body runs at most 366 times, so any `fuel ≥ 366 - back` makes the
embedding exact. -/
def streakLoop (hasLog : Nat → Bool) : Nat → Nat → Nat → Nat
  | streak, _, 0 => streak
  | streak, back, fuel + 1 =>
    if hasLog back then
      let streak' := streak + 1
      let back' := back + 1
      if back' > 365 then streak' else streakLoop hasLog streak' back' fuel
    else streak

/-- `calculate_streak(user)`, abstracted over the per-day log-existence
query. -/
def calculate_streak (hasLog : Nat → Bool) : Nat :=
  streakLoop hasLog 0 0 366

/-! ## Profile capability model (`authentication/models.py`, `Profile`) -/

/-- `User.role` (`USER_ROLES` choices). -/
inductive Role where
  | client
  | trainer
  | admin
  deriving Repr, DecidableEq

/-- An authenticated principal: `request.user`, reduced to the fields the
core reads (`id`, `role`). -/
structure UserRec where
  id : Nat
  role : Role
  deriving Repr, DecidableEq

/-- The slice of `Profile` read by `can_accept_clients`.  `max_clients`
is a nullable integer column (`null=True`), hence `Option Int`. -/
structure Profile where
  role : Role
  is_accepting_clients : Bool
  subscription_active : Bool
  max_clients : Option Int
  deriving Repr, DecidableEq

/-- Python truthiness of the nullable integer `self.max_clients`:
`None` and `0` are falsy, every other integer is truthy. -/
def intTruthy : Option Int → Bool
  | none => false
  | some v => v ≠ 0

/-- `Profile.can_accept_clients`.  `current_client_count` (a live count of
`status='active'` connections of this trainer) is passed in as an argument.
The guard `if self.max_clients and self.current_client_count >= self.max_clients`
short-circuits on the truthiness of `max_clients`. -/
def can_accept_clients (p : Profile) (current_client_count : Int) : Bool :=
  if p.role ≠ Role.trainer then false
  else if ¬ p.is_accepting_clients then false
  else if ¬ p.subscription_active then false
  else if intTruthy p.max_clients ∧ current_client_count ≥ p.max_clients.getD 0 then false
  else true

/-! ## Connection state machine (`connections/models.py`, `connections/views.py`) -/

/-- `TrainerClientConnection.STATUS_CHOICES`. -/
inductive ConnStatus where
  | pending
  | active
  | paused
  | ended
  | rejected
  deriving Repr, DecidableEq

/-- One `TrainerClientConnection` row.  `trainer` and `client` hold user
ids; `requested_at` is set at creation (`auto_now_add`), `connected_at`
and `ended_at` start `NULL`. -/
structure Connection where
  id : Nat
  trainer : Nat
  client : Nat
  status : ConnStatus
  can_view_workouts : Bool
  can_assign_workouts : Bool
  can_view_nutrition : Bool
  can_view_progress_photos : Bool
  can_view_body_metrics : Bool
  can_comment_workouts : Bool
  request_message : String
  rejection_reason : String
  requested_at : Nat
  connected_at : Option Nat
  ended_at : Option Nat
  deriving Repr, DecidableEq

/-- The connection table plus the autoincrement primary-key counter. -/
structure ConnDB where
  conns : List Connection
  nextId : Nat
  deriving Repr, DecidableEq

/-- Error responses returned by the connection and workout views.
`stateConflict` appears in the design document's error taxonomy and is
included so that statements about it can be formed; the translated code
itself never constructs it. -/
inductive ApiError where
  | forbidden (msg : String)
  | badRequest (msg : String)
  | notFound (msg : String)
  | validationError (msg : String)
  | stateConflict (msg : String)
  deriving Repr, DecidableEq

/-- Row update by primary key, as `connection.save()` on a fetched row:
replaces the row whose `id` matches. -/
def ConnDB.updateConn (db : ConnDB) (c' : Connection) : ConnDB :=
  { db with conns := db.conns.map fun c => if c.id = c'.id then c' else c }

/-- `TrainerClientConnection.objects.create(...)` for a fresh request.
`save()` runs `full_clean()`, which enforces the model's `clean()` role
checks and the `unique_together = ['trainer', 'client']` constraint
before the row is inserted, raising `ValidationError` otherwise.
Permission flags take their model-field defaults; `requested_at` is set
`auto_now_add`. -/
def createConnection (trainerU clientU : UserRec) (message : String)
    (db : ConnDB) (now : Nat) : Except ApiError (Connection × ConnDB) :=
  if trainerU.role ≠ Role.trainer then
    Except.error (ApiError.validationError "Trainer must have 'trainer' role")
  else if clientU.role ≠ Role.client then
    Except.error (ApiError.validationError "Client must have 'client' role")
  else if trainerU.id = clientU.id then
    Except.error (ApiError.validationError "User cannot be their own trainer")
  else if db.conns.any fun c => c.trainer = trainerU.id ∧ c.client = clientU.id then
    Except.error (ApiError.validationError
      "Trainer client connection with this Trainer and Client already exists.")
  else
    let c : Connection :=
      { id := db.nextId, trainer := trainerU.id, client := clientU.id
        status := ConnStatus.pending
        can_view_workouts := true, can_assign_workouts := true
        can_view_nutrition := false, can_view_progress_photos := false
        can_view_body_metrics := false, can_comment_workouts := true
        request_message := message, rejection_reason := ""
        requested_at := now, connected_at := none, ended_at := none }
    Except.ok (c, { conns := db.conns ++ [c], nextId := db.nextId + 1 })

/-- `request_trainer_connection` (`connections/views.py`).  The serializer's
`validate_trainer_id` resolves the trainer (`role='trainer'`) and requires
`trainer.profile.can_accept_clients`; the view then looks up an existing
row for the pair and branches on its status before creating a new row. -/
def request_trainer_connection (user trainerU : UserRec)
    (trainerProfile : Profile) (trainerActiveCount : Int) (message : String)
    (db : ConnDB) (now : Nat) : Except ApiError (Connection × ConnDB) :=
  if user.role ≠ Role.client then
    Except.error (ApiError.forbidden "Only clients can request trainer connections.")
  else if trainerU.role ≠ Role.trainer then
    Except.error (ApiError.validationError "Trainer not found.")
  else if ¬ can_accept_clients trainerProfile trainerActiveCount then
    Except.error (ApiError.validationError "This trainer is not accepting new clients.")
  else
    match db.conns.find? fun c => c.trainer = trainerU.id ∧ c.client = user.id with
    | some existing =>
      if existing.status = ConnStatus.pending then
        Except.error (ApiError.badRequest "Request already pending.")
      else if existing.status = ConnStatus.active then
        Except.error (ApiError.badRequest "You are already connected to this trainer.")
      else
        createConnection trainerU user message db now
    | none =>
      createConnection trainerU user message db now

/-- `accept_connection_request` (`connections/views.py`): the lookup filters
on `id`, `trainer=request.user` and `status='pending'` at once, so any
miss — wrong id, wrong trainer, or a non-pending status — is a 404. -/
def accept_connection_request (user : UserRec) (connection_id : Nat)
    (db : ConnDB) (now : Nat) : Except ApiError (Connection × ConnDB) :=
  if user.role ≠ Role.trainer then
    Except.error (ApiError.forbidden "Only trainers can accept requests.")
  else
    match db.conns.find? fun c =>
        c.id = connection_id ∧ c.trainer = user.id ∧ c.status = ConnStatus.pending with
    | none => Except.error (ApiError.notFound "Connection request not found.")
    | some c =>
      let c' := { c with status := ConnStatus.active, connected_at := some now }
      Except.ok (c', db.updateConn c')

/-- `update_connection_permissions` request body: the serializer is applied
with `partial=True`, so every flag is optional. -/
structure PermFlags where
  can_view_workouts : Option Bool
  can_assign_workouts : Option Bool
  can_view_nutrition : Option Bool
  can_view_progress_photos : Option Bool
  can_view_body_metrics : Option Bool
  can_comment_workouts : Option Bool
  deriving Repr, DecidableEq

/-- Partial-update semantics of `UpdatePermissionsSerializer.save()`:
a flag absent from the request keeps the stored value. -/
def applyPermFlags (c : Connection) (f : PermFlags) : Connection :=
  { c with
    can_view_workouts := f.can_view_workouts.getD c.can_view_workouts
    can_assign_workouts := f.can_assign_workouts.getD c.can_assign_workouts
    can_view_nutrition := f.can_view_nutrition.getD c.can_view_nutrition
    can_view_progress_photos := f.can_view_progress_photos.getD c.can_view_progress_photos
    can_view_body_metrics := f.can_view_body_metrics.getD c.can_view_body_metrics
    can_comment_workouts := f.can_comment_workouts.getD c.can_comment_workouts }

/-- `update_connection_permissions` (`connections/views.py`): role check,
lookup by `id` and `client=request.user` (no status filter), then partial
update of the permission flags. -/
def update_connection_permissions (user : UserRec) (connection_id : Nat)
    (flags : PermFlags) (db : ConnDB) : Except ApiError (Connection × ConnDB) :=
  if user.role ≠ Role.client then
    Except.error (ApiError.forbidden "Only clients can update permissions.")
  else
    match db.conns.find? fun c => c.id = connection_id ∧ c.client = user.id with
    | none => Except.error (ApiError.notFound "Connection not found.")
    | some c =>
      let c' := applyPermFlags c flags
      Except.ok (c', db.updateConn c')

/-- `end_connection` (`connections/views.py`): lookup by `id` with
`Q(trainer=request.user) | Q(client=request.user)` and no status filter;
on a hit the row is set to `ended` with `ended_at=now` unconditionally. -/
def end_connection (user : UserRec) (connection_id : Nat)
    (db : ConnDB) (now : Nat) : Except ApiError (Connection × ConnDB) :=
  match db.conns.find? fun c =>
      c.id = connection_id ∧ (c.trainer = user.id ∨ c.client = user.id) with
  | none => Except.error (ApiError.notFound "Connection not found.")
  | some c =>
    let c' := { c with status := ConnStatus.ended, ended_at := some now }
    Except.ok (c', db.updateConn c')

/-! ## Personal-record engine (`workouts/models.py`, `workouts/views.py`) -/

/-- `PersonalRecord.PR_TYPE_CHOICES`. -/
inductive PRType where
  | max_weight
  | max_reps
  | max_volume
  deriving Repr, DecidableEq

/-- One `PersonalRecord` row.  `weight` and `volume` are nullable decimal
columns; `workout_log` is a nullable foreign key. -/
structure PRRecord where
  user : Nat
  exercise : Nat
  pr_type : PRType
  weight : Option Int
  volume : Option Int
  workout_log : Option Nat
  date_achieved : Nat
  deriving Repr, DecidableEq

/-- The filter of `PersonalRecord.objects.get_or_create(user=…, exercise=…,
pr_type=…)`: match on the `unique_together` key. -/
def prKey (user exercise : Nat) (t : PRType) (r : PRRecord) : Bool :=
  r.user = user ∧ r.exercise = exercise ∧ r.pr_type = t

/-- `pr.save()` on a fetched row: replace the row with the matching
`(user, exercise, pr_type)` key (the table's unique key). -/
def updatePR (store : List PRRecord) (user exercise : Nat) (t : PRType)
    (r' : PRRecord) : List PRRecord :=
  store.map fun r => if prKey user exercise t r then r' else r

/-- The max-weight block of `WorkoutLogCreateView.check_for_prs` for one
exercise log: guarded by `max_weight > 0`, then `get_or_create` on the
`(user, exercise, 'max_weight')` key with `defaults` filling `weight`,
`workout_log`, `date_achieved`; an existing row is updated and reported
only when `max_weight > (pr.weight or 0)` (Python `x or 0` collapses
`None` — and `0` itself — to `0`, which agrees with `Option.getD 0`). -/
def check_weight_pr (user workout_log_id workout_date exercise : Nat)
    (max_weight : Int) (store achieved : List PRRecord) :
    List PRRecord × List PRRecord :=
  if max_weight > 0 then
    match store.find? (prKey user exercise PRType.max_weight) with
    | none =>
      let pr : PRRecord :=
        { user := user, exercise := exercise, pr_type := PRType.max_weight
          weight := some max_weight, volume := none
          workout_log := some workout_log_id, date_achieved := workout_date }
      (store ++ [pr], achieved ++ [pr])
    | some pr =>
      if max_weight > pr.weight.getD 0 then
        let pr' := { pr with weight := some max_weight
                             workout_log := some workout_log_id
                             date_achieved := workout_date }
        (updatePR store user exercise PRType.max_weight pr', achieved ++ [pr'])
      else (store, achieved)
  else (store, achieved)

/-- The max-volume block of `check_for_prs`, identical in shape to the
max-weight block but keyed on `'max_volume'`, guarded by
`total_volume > 0` and comparing `total_volume > (pr.volume or 0)`. -/
def check_volume_pr (user workout_log_id workout_date exercise : Nat)
    (total_volume : Int) (store achieved : List PRRecord) :
    List PRRecord × List PRRecord :=
  if total_volume > 0 then
    match store.find? (prKey user exercise PRType.max_volume) with
    | none =>
      let pr : PRRecord :=
        { user := user, exercise := exercise, pr_type := PRType.max_volume
          weight := none, volume := some total_volume
          workout_log := some workout_log_id, date_achieved := workout_date }
      (store ++ [pr], achieved ++ [pr])
    | some pr =>
      if total_volume > pr.volume.getD 0 then
        let pr' := { pr with volume := some total_volume
                             workout_log := some workout_log_id
                             date_achieved := workout_date }
        (updatePR store user exercise PRType.max_volume pr', achieved ++ [pr'])
      else (store, achieved)
  else (store, achieved)

/-- One `ExerciseLog` child of the created workout, reduced to what
`check_for_prs` reads. -/
structure ExerciseLogM where
  exercise : Nat
  sets_data : List SetData
  deriving Repr, DecidableEq

/-- One iteration of the `for exercise_log in workout_log.exercise_logs.all()`
loop: compute `max_weight` and `total_volume` via the engine, run the
weight block, then the volume block, threading the store and the
`prs_achieved` accumulator. -/
def processExerciseLog (user workout_log_id workout_date : Nat)
    (st : List PRRecord × List PRRecord) (elog : ExerciseLogM) :
    List PRRecord × List PRRecord :=
  let max_weight := get_max_weight elog.sets_data
  let total_volume := calculate_volume elog.sets_data
  let st' := check_weight_pr user workout_log_id workout_date elog.exercise
    max_weight st.1 st.2
  check_volume_pr user workout_log_id workout_date elog.exercise
    total_volume st'.1 st'.2

/-- `WorkoutLogCreateView.check_for_prs`: fold the per-exercise-log step
over the workout's exercise logs, starting from the stored PR table and an
empty `prs_achieved` list; returns the new table and the reported PRs. -/
def check_for_prs (user workout_log_id workout_date : Nat)
    (elogs : List ExerciseLogM) (store : List PRRecord) :
    List PRRecord × List PRRecord :=
  elogs.foldl (processExerciseLog user workout_log_id workout_date) (store, [])

/-! ## Saving an AI-generated workout (`workouts/views.py`, `save_ai_workout`) -/

/-- One entry of the request's `exercises` list.  `ex.get("exercise_id")`
has no default, so a missing key yields `None` (`Option`); the remaining
keys carry the defaults the view passes to `.get`. -/
structure AIExerciseReq where
  exercise_id : Option Nat
  order : Nat
  target_sets : Int
  target_reps : String
  rest_seconds : Int
  notes : String
  deriving Repr, DecidableEq

/-- An `ExerciseLog` row as created by `save_ai_workout`
(`sets_data=[]`, `target_weight=None`). -/
structure AIExerciseLogRow where
  exercise : Nat
  order : Nat
  sets_data : List SetData
  target_sets : Int
  target_reps : String
  target_weight : Option Int
  rest_seconds : Int
  notes : String
  deriving Repr, DecidableEq

/-- A `WorkoutLog` row as created by `save_ai_workout`, together with its
child `ExerciseLog` rows. -/
structure AIWorkoutRow where
  user : Nat
  name : String
  notes : String
  workout_date : Nat
  is_template : Bool
  exercise_logs : List AIExerciseLogRow
  deriving Repr, DecidableEq

/-- The `for ex in exercises` loop of `save_ai_workout`:
`Exercise.objects.get(id=exercise_id)` succeeds only for an id present in
the exercise table (`exerciseExists`); a `DoesNotExist` — including
`exercise_id` missing from the request — hits `continue`, silently
skipping the entry. -/
def buildAIExerciseLogs (exerciseExists : Nat → Bool)
    (exercises : List AIExerciseReq) : List AIExerciseLogRow :=
  exercises.foldl
    (fun acc ex =>
      match ex.exercise_id with
      | none => acc
      | some eid =>
        if exerciseExists eid then
          acc ++ [{ exercise := eid, order := ex.order, sets_data := []
                    target_sets := ex.target_sets, target_reps := ex.target_reps
                    target_weight := none, rest_seconds := ex.rest_seconds
                    notes := ex.notes }]
        else acc) []

/-- `save_ai_workout` (`workouts/views.py`).  `data.get("workout_name") or
"AI Generated Workout"` falls back on a missing or empty name (Python
`or` on a falsy string).  An empty `exercises` list is rejected with 400
before anything is written; otherwise the `WorkoutLog` row is created
first and the exercise loop then appends whichever entries resolve. -/
def save_ai_workout (user : Nat) (exerciseExists : Nat → Bool)
    (workout_name : Option String) (description : String)
    (exercises : List AIExerciseReq) (today : Nat)
    (db : List AIWorkoutRow) : Except ApiError (List AIWorkoutRow) :=
  let name := match workout_name with
    | none => "AI Generated Workout"
    | some n => if n = "" then "AI Generated Workout" else n
  if exercises = [] then
    Except.error (ApiError.badRequest "No exercises provided.")
  else
    let workout_log : AIWorkoutRow :=
      { user := user, name := name, notes := description
        workout_date := today, is_template := false
        exercise_logs := buildAIExerciseLogs exerciseExists exercises }
    Except.ok (db ++ [workout_log])

/-! ## Helper lemmas -/

theorem volume_foldl_eq (l : List SetData) (a : Int) :
    l.foldl (fun total s =>
        if s.getCompleted then total + s.getReps * s.getWeight else total) a
      = a + ((l.filter SetData.getCompleted).map fun s => s.getReps * s.getWeight).sum := by
  induction l generalizing a with
  | nil => simp
  | cons s l ih =>
    by_cases h : s.getCompleted <;>
      simp [List.foldl_cons, ih, List.filter_cons, h, add_assoc]

theorem calculate_volume_eq (sets_data : List SetData) :
    calculate_volume sets_data =
      ((sets_data.filter SetData.getCompleted).map fun s => s.getReps * s.getWeight).sum := by
  simpa using volume_foldl_eq sets_data 0

theorem get_max_weight_eq_max? (sets_data : List SetData) :
    get_max_weight sets_data =
      (((sets_data.filter SetData.getCompleted).map SetData.getWeight).max?).getD 0 := by
  unfold get_max_weight
  cases h : (sets_data.filter SetData.getCompleted).map SetData.getWeight with
  | nil => simp [h]
  | cons w ws => simp [h, List.max?]

theorem foldl_max_all_zero (l : List Int) (h : ∀ w ∈ l, w = 0) :
    ∀ a, a = 0 → l.foldl max a = 0 := by
  induction l with
  | nil => intro a ha; simpa using ha
  | cons w t ih =>
    intro a ha
    have hw : w = 0 := h w (List.mem_cons_self w t)
    have ht : ∀ w ∈ t, w = 0 := fun x hx => h x (List.mem_cons_of_mem w hx)
    simpa [List.foldl_cons] using ih ht (max a w) (by simp [ha, hw])

/-! ## C4 -/

/-- C4: `calculate_volume` is the sum of `reps * weight` over exactly the
completed sets, and `get_max_weight` is the maximum weight among completed
sets; when no set is completed (in particular on an empty list) both
return exactly `0`. -/
theorem C4_volume_and_max_weight (sets_data : List SetData) :
    calculate_volume sets_data =
      ((sets_data.filter SetData.getCompleted).map fun s => s.getReps * s.getWeight).sum
    ∧ get_max_weight sets_data =
      (((sets_data.filter SetData.getCompleted).map SetData.getWeight).max?).getD 0
    ∧ (sets_data.filter SetData.getCompleted = [] →
        calculate_volume sets_data = 0 ∧ get_max_weight sets_data = 0) := by
  refine ⟨calculate_volume_eq sets_data, get_max_weight_eq_max? sets_data, fun h => ?_⟩
  constructor
  · rw [calculate_volume_eq, h]; simp
  · rw [get_max_weight_eq_max?, h]; simp

/-- Witness for C4, the spec's own example: a single incomplete set
`{reps:10, weight:100, completed:false}` yields `Volume = 0` and
`MaxWeight = 0`. -/
theorem C4_witness :
    ([⟨some 10, some 100, some false⟩] : List SetData).filter SetData.getCompleted = []
    ∧ (calculate_volume [⟨some 10, some 100, some false⟩] = 0
       ∧ get_max_weight [⟨some 10, some 100, some false⟩] = 0) :=
  ⟨by decide, (C4_volume_and_max_weight [⟨some 10, some 100, some false⟩]).2.2 (by decide)⟩

/-! ## C10 -/

/-- C10: the set-record readers are total over records with missing keys —
a record with no `completed` key is treated as not completed (it changes
none of the three aggregates), a record missing `reps` or `weight`
contributes `0` for the missing value, and `get_max_weight` over completed
records that all lack `weight` is `0`. -/
theorem C10_missing_keys (s : SetData) (sets_data : List SetData) :
    (s.completed = none →
      s.getCompleted = false
      ∧ calculate_volume (s :: sets_data) = calculate_volume sets_data
      ∧ get_completed_sets_count (s :: sets_data) = get_completed_sets_count sets_data
      ∧ get_max_weight (s :: sets_data) = get_max_weight sets_data)
    ∧ (s.reps = none → s.getReps = 0)
    ∧ (s.weight = none → s.getWeight = 0)
    ∧ ((∀ t ∈ sets_data, t.getCompleted = true → t.weight = none) →
        get_max_weight sets_data = 0) := by
  refine ⟨fun hc => ?_, fun hr => ?_, fun hw => ?_, fun hall => ?_⟩
  · have hfalse : s.getCompleted = false := by simp [SetData.getCompleted, hc]
    refine ⟨hfalse, ?_, ?_, ?_⟩
    · simp [calculate_volume, List.foldl_cons, hfalse]
    · simp [get_completed_sets_count, List.filter_cons, hfalse]
    · simp [get_max_weight, List.filter_cons, hfalse]
  · simp [SetData.getReps, hr]
  · simp [SetData.getWeight, hw]
  · have hz : ∀ w ∈ (sets_data.filter SetData.getCompleted).map SetData.getWeight, w = 0 := by
      intro w hw
      obtain ⟨t, ht, rfl⟩ := List.mem_map.1 hw
      obtain ⟨_, htc⟩ := List.mem_filter.1 ht
      simp [SetData.getWeight, hall t (List.mem_filter.1 ht).1 htc]
    unfold get_max_weight
    cases h : (sets_data.filter SetData.getCompleted).map SetData.getWeight with
    | nil => simp
    | cons w ws =>
      have hw0 : w = 0 := hz w (h ▸ List.mem_cons_self w ws)
      have hws : ∀ x ∈ ws, x = 0 := fun x hx => hz x (h ▸ List.mem_cons_of_mem w hx)
      simpa using foldl_max_all_zero ws hws w hw0

/-- Witness for C10: a completed set with no `reps`/`weight` keys and a
set with no `completed` key. -/
theorem C10_witness :
    (⟨none, none, some true⟩ : SetData).completed ≠ none
    ∧ (⟨none, none, none⟩ : SetData).completed = none
    ∧ calculate_volume [⟨none, none, none⟩] = calculate_volume []
    ∧ (⟨none, none, some true⟩ : SetData).getReps = 0
    ∧ (⟨none, none, some true⟩ : SetData).getWeight = 0
    ∧ get_max_weight [⟨none, none, some true⟩] = 0 := by
  have h₁ := (C10_missing_keys ⟨none, none, none⟩ []).1 rfl
  have h₂ := (C10_missing_keys (⟨none, none, some true⟩ : SetData) [⟨none, none, some true⟩])
  exact ⟨by decide, rfl, h₁.2.1, h₂.2.1 rfl, h₂.2.2.1 rfl,
    h₂.2.2.2 (fun t ht _ => by
      have : t = ⟨none, none, some true⟩ := by simpa using ht
      simp [this])⟩

/-! ## C5 -/

theorem streakLoop_spec (hasLog : Nat → Bool) (n : Nat) (hn : n ≤ 366)
    (hall : ∀ k, k < n → hasLog k = true) (hstop : n = 366 ∨ hasLog n = false) :
    ∀ fuel j, j ≤ n → j + fuel = 366 → streakLoop hasLog j j fuel = n := by
  intro fuel
  induction fuel with
  | zero =>
    intro j hj hsum
    have h366 : j = 366 := by omega
    have hn366 : n = 366 := by omega
    simp [streakLoop, h366, hn366]
  | succ fuel ih =>
    intro j hj hsum
    rcases Nat.lt_or_ge j n with hlt | hge
    · have hj' : hasLog j = true := hall j hlt
      rw [streakLoop, hj']
      simp only [if_true]
      by_cases hb : j + 1 > 365
      · have hj1 : j + 1 = 366 := by omega
        have hn1 : n = 366 := by omega
        simp [hb, hj1, hn1]
      · simp only [hb, if_false]
        exact ih (j + 1) (by omega) (by omega)
    · have hjn : j = n := le_antisymm hj hge
      rcases hstop with h366 | hfalse
      · omega
      · rw [streakLoop, hjn, hfalse]
        simp

/-- C5: `calculate_streak` returns the number of consecutive days,
starting at today and walking backward one day at a time, on which a
workout log exists; it stops at the first day without a log, or — when
every scanned day has one — after evaluating the day 365 days back
(so the accumulated count is then 366). -/
theorem C5_calculate_streak (hasLog : Nat → Bool) (n : Nat) (hn : n ≤ 366)
    (hall : ∀ k, k < n → hasLog k = true) (hstop : n = 366 ∨ hasLog n = false) :
    calculate_streak hasLog = n :=
  streakLoop_spec hasLog n hn hall hstop 366 0 (Nat.zero_le n) rfl

/-- Witness for C5, the spec's example: logs on days `D`, `D-1`, `D-2` and
a gap at `D-3` give a streak of `3`. -/
theorem C5_witness :
    (3:Nat) ≤ 366 ∧ decide ((3:Nat) < 3) = false
    ∧ calculate_streak (fun d => decide (d < 3)) = 3 :=
  ⟨by decide, by decide,
    C5_calculate_streak (fun d => decide (d < 3)) 3 (by decide)
      (fun k hk => decide_eq_true hk) (Or.inr (by decide))⟩

/-! ## C6 -/

/-- C6 counterexample: a trainer profile with `max_clients = 0` (a set
value, not `NULL`), accepting, with an active subscription, and zero
active clients.  The claim requires `can_accept_clients = false` here
(`max_clients` is set and the count `0` is not strictly below it), but the
code's `if self.max_clients and ...` guard treats the falsy `0` like
`NULL` and returns `true`. -/
theorem C6_counterexample :
    can_accept_clients ⟨Role.trainer, true, true, some 0⟩ 0 = true
    ∧ ¬(((⟨Role.trainer, true, true, some 0⟩ : Profile).max_clients = none)
        ∨ ∀ m, (⟨Role.trainer, true, true, some 0⟩ : Profile).max_clients = some m →
            (0:Int) < m) := by
  refine ⟨by decide, fun h => ?_⟩
  rcases h with h | h
  · exact Option.noConfusion h
  · exact absurd (h 0 rfl) (by decide)

/-- C6 amended: `can_accept_clients` is true iff the role is trainer,
`is_accepting_clients` and `subscription_active` hold, and `max_clients`
is unset **or zero** (Python truthiness collapses the two), or the active
client count is strictly below it; in particular it is false for every
non-trainer. -/
theorem C6_can_accept_clients_iff (p : Profile) (count : Int) :
    can_accept_clients p count = true ↔
      p.role = Role.trainer ∧ p.is_accepting_clients = true
      ∧ p.subscription_active = true
      ∧ (p.max_clients = none ∨ p.max_clients = some 0
         ∨ ∃ m, p.max_clients = some m ∧ count < m) := by
  obtain ⟨role, acc, sub, mc⟩ := p
  simp only [can_accept_clients, intTruthy]
  cases role <;> cases acc <;> cases sub <;> rcases mc with _ | m <;> simp_all

/-! ## C2 -/

/-- C2 counterexample: the connection is already in the terminal status
`ended` (`ended_at = some 2`), yet `end_connection` succeeds silently and
mutates the row again (`ended_at` becomes `7`), instead of failing with a
terminal-state error and leaving the record unchanged as the claim
states. -/
theorem C2_counterexample :
    end_connection ⟨20, Role.client⟩ 1
        ⟨[⟨1, 10, 20, ConnStatus.ended, true, true, false, false, false, true,
            "", "", 0, some 1, some 2⟩], 2⟩ 7
      = Except.ok
          (⟨1, 10, 20, ConnStatus.ended, true, true, false, false, false, true,
              "", "", 0, some 1, some 7⟩,
           ⟨[⟨1, 10, 20, ConnStatus.ended, true, true, false, false, false, true,
              "", "", 0, some 1, some 7⟩], 2⟩) := by
  rfl

/-- C2 amended: `end_connection` performs no status check at all — for the
trainer or the client on the record it succeeds from *any* status
(including the terminal `ended` and `rejected`), setting `status = ended`
and `ended_at = now`; repeating the call after `ended` silently succeeds
again.  Only a missing record (or a caller who is neither party) yields an
error, namely 404 `NotFound`. -/
theorem C2_end_connection_any_status (user : UserRec) (connection_id : Nat)
    (db : ConnDB) (now : Nat) :
    (∀ c, db.conns.find? (fun c =>
          c.id = connection_id ∧ (c.trainer = user.id ∨ c.client = user.id)) = some c →
        end_connection user connection_id db now =
          Except.ok ({ c with status := ConnStatus.ended, ended_at := some now },
            db.updateConn { c with status := ConnStatus.ended, ended_at := some now }))
    ∧ (db.conns.find? (fun c =>
          c.id = connection_id ∧ (c.trainer = user.id ∨ c.client = user.id)) = none →
        end_connection user connection_id db now =
          Except.error (ApiError.notFound "Connection not found.")) := by
  constructor
  · intro c h
    unfold end_connection
    rw [h]
  · intro h
    unfold end_connection
    rw [h]

/-- Witness for C2: a trainer ends an `active` connection; the call
succeeds and sets `status = ended`, `ended_at = now`. -/
theorem C2_witness :
    end_connection ⟨10, Role.trainer⟩ 1
        ⟨[⟨1, 10, 20, ConnStatus.active, true, true, false, false, false, true,
            "", "", 0, some 1, none⟩], 2⟩ 5
      = Except.ok
          (⟨1, 10, 20, ConnStatus.ended, true, true, false, false, false, true,
              "", "", 0, some 1, some 5⟩,
           ⟨[⟨1, 10, 20, ConnStatus.ended, true, true, false, false, false, true,
              "", "", 0, some 1, some 5⟩], 2⟩) :=
  (C2_end_connection_any_status ⟨10, Role.trainer⟩ 1
      ⟨[⟨1, 10, 20, ConnStatus.active, true, true, false, false, false, true,
          "", "", 0, some 1, none⟩], 2⟩ 5).1
    ⟨1, 10, 20, ConnStatus.active, true, true, false, false, false, true,
      "", "", 0, some 1, none⟩ rfl

/-! ## C3 -/

/-- At most one connection row per (trainer, client) pair. -/
def UniquePairs (db : ConnDB) : Prop :=
  ∀ c1 ∈ db.conns, ∀ c2 ∈ db.conns,
    c1.trainer = c2.trainer → c1.client = c2.client → c1 = c2

theorem createConnection_ok (trainerU clientU : UserRec) (msg : String)
    (db : ConnDB) (now : Nat) (c : Connection) (db' : ConnDB)
    (h : createConnection trainerU clientU msg db now = Except.ok (c, db')) :
    db' = ⟨db.conns ++ [c], db.nextId + 1⟩
    ∧ (∀ ex ∈ db.conns, ¬(ex.trainer = trainerU.id ∧ ex.client = clientU.id))
    ∧ c.trainer = trainerU.id ∧ c.client = clientU.id
    ∧ c.status = ConnStatus.pending ∧ c.requested_at = now
    ∧ c.connected_at = none ∧ c.id = db.nextId := by
  unfold createConnection at h
  split at h
  · exact absurd h (by simp)
  split at h
  · exact absurd h (by simp)
  split at h
  · exact absurd h (by simp)
  split at h
  · exact absurd h (by simp)
  next hne₁ hne₂ hne₃ hany =>
    obtain ⟨rfl, rfl⟩ : _ ∧ _ := by
      have := Except.ok.inj h
      exact ⟨congrArg Prod.fst this, congrArg Prod.snd this⟩
    refine ⟨rfl, ?_, rfl, rfl, rfl, rfl, rfl, rfl⟩
    intro ex hex hpair
    exact hany (List.any_eq_true.2 ⟨ex, hex, by simp [hpair.1, hpair.2]⟩)

theorem uniquePairs_append (db : ConnDB) (c : Connection)
    (huniq : UniquePairs db)
    (hnopair : ∀ ex ∈ db.conns, ¬(ex.trainer = c.trainer ∧ ex.client = c.client)) :
    UniquePairs ⟨db.conns ++ [c], db.nextId + 1⟩ := by
  intro c1 h1 c2 h2 ht hc
  simp only [List.mem_append, List.mem_singleton] at h1 h2
  rcases h1 with h1 | rfl <;> rcases h2 with h2 | rfl
  · exact huniq c1 h1 c2 h2 ht hc
  · exact absurd ⟨ht, hc⟩ (hnopair c1 h1)
  · exact absurd ⟨ht.symm, hc.symm⟩ (hnopair c2 h2)
  · rfl

/-- C3: under the (trainer, client) uniqueness invariant, a successful
`request_trainer_connection` appends exactly one new row, is only possible
when no row for the pair existed (the model's `full_clean` enforces
`unique_together` before insert), and preserves the invariant — so two
requests from the same client to the same trainer never produce two rows;
and when a row for the pair exists, a second request fails with
"Request already pending." while it is `pending` and with
"You are already connected to this trainer." while it is `active`. -/
theorem C3_connection_uniqueness (user trainerU : UserRec) (tp : Profile)
    (tcount : Int) (msg : String) (db : ConnDB) (now : Nat)
    (huniq : UniquePairs db) :
    (∀ c db', request_trainer_connection user trainerU tp tcount msg db now
        = Except.ok (c, db') →
      db'.conns = db.conns ++ [c]
      ∧ (∀ ex ∈ db.conns, ¬(ex.trainer = trainerU.id ∧ ex.client = user.id))
      ∧ UniquePairs db')
    ∧ (∀ ex ∈ db.conns, ex.trainer = trainerU.id → ex.client = user.id →
        user.role = Role.client → trainerU.role = Role.trainer →
        can_accept_clients tp tcount = true →
        (ex.status = ConnStatus.pending →
          request_trainer_connection user trainerU tp tcount msg db now
            = Except.error (ApiError.badRequest "Request already pending."))
        ∧ (ex.status = ConnStatus.active →
          request_trainer_connection user trainerU tp tcount msg db now
            = Except.error (ApiError.badRequest
                "You are already connected to this trainer."))) := by
  constructor
  · intro c db' h
    unfold request_trainer_connection at h
    split at h
    · exact absurd h (by simp)
    split at h
    · exact absurd h (by simp)
    split at h
    · exact absurd h (by simp)
    split at h
    next existing hfind =>
      split at h
      · exact absurd h (by simp)
      split at h
      · exact absurd h (by simp)
      · obtain ⟨hdb', hnopair, hct, hcc, -, -, -, hid⟩ :=
          createConnection_ok trainerU user msg db now c db' h
        refine ⟨by rw [hdb'], hnopair, ?_⟩
        rw [hdb']
        exact uniquePairs_append db c huniq (by rw [hct, hcc]; exact hnopair)
    next hfind =>
      obtain ⟨hdb', hnopair, hct, hcc, -, -, -, hid⟩ :=
        createConnection_ok trainerU user msg db now c db' h
      refine ⟨by rw [hdb'], hnopair, ?_⟩
      rw [hdb']
      exact uniquePairs_append db c huniq (by rw [hct, hcc]; exact hnopair)
  · intro ex hex hext hexc hur htr hacc
    have hfind : db.conns.find?
        (fun c => c.trainer = trainerU.id ∧ c.client = user.id) = some ex := by
      cases hf : db.conns.find?
          (fun c => c.trainer = trainerU.id ∧ c.client = user.id) with
      | none =>
        exact absurd (by simp [hext, hexc] : decide
            (ex.trainer = trainerU.id ∧ ex.client = user.id) = true)
          (by simpa using List.find?_eq_none.1 hf ex hex)
      | some c1 =>
        have hp := List.find?_some hf
        have hm := List.mem_of_find?_eq_some hf
        simp only [decide_eq_true_eq] at hp
        have : c1 = ex := huniq c1 hm ex hex (hp.1.trans hext.symm) (hp.2.trans hexc.symm)
        rw [this]
    constructor
    · intro hpend
      unfold request_trainer_connection
      rw [if_neg (by simp [hur]), if_neg (by simp [htr]), if_neg (by simp [hacc]), hfind]
      simp [hpend]
    · intro hact
      unfold request_trainer_connection
      rw [if_neg (by simp [hur]), if_neg (by simp [htr]), if_neg (by simp [hacc]), hfind]
      simp [hact]

/-- Witness for C3: a second request from client 20 to trainer 10 while
the existing row is `pending` fails with "Request already pending.". -/
theorem C3_witness :
    UniquePairs ⟨[⟨1, 10, 20, ConnStatus.pending, true, true, false, false, false, true,
        "", "", 0, none, none⟩], 2⟩
    ∧ request_trainer_connection ⟨20, Role.client⟩ ⟨10, Role.trainer⟩
        ⟨Role.trainer, true, true, none⟩ 0 ""
        ⟨[⟨1, 10, 20, ConnStatus.pending, true, true, false, false, false, true,
            "", "", 0, none, none⟩], 2⟩ 3
      = Except.error (ApiError.badRequest "Request already pending.") := by
  have huniq : UniquePairs ⟨[⟨1, 10, 20, ConnStatus.pending, true, true, false, false,
      false, true, "", "", 0, none, none⟩], 2⟩ := by
    intro c1 h1 c2 h2 _ _
    simp only [List.mem_singleton] at h1 h2
    rw [h1, h2]
  refine ⟨huniq, ?_⟩
  exact ((C3_connection_uniqueness ⟨20, Role.client⟩ ⟨10, Role.trainer⟩
      ⟨Role.trainer, true, true, none⟩ 0 ""
      ⟨[⟨1, 10, 20, ConnStatus.pending, true, true, false, false, false, true,
          "", "", 0, none, none⟩], 2⟩ 3 huniq).2
    ⟨1, 10, 20, ConnStatus.pending, true, true, false, false, false, true,
        "", "", 0, none, none⟩
    (List.mem_singleton.2 rfl) rfl rfl rfl rfl (by decide)).1 rfl

/-! ## C7 -/

/-- Every stored row's id is below the autoincrement counter. -/
def FreshIds (db : ConnDB) : Prop :=
  ∀ c ∈ db.conns, c.id < db.nextId

/-- C7 counterexample: the full request-then-accept scenario from an empty
table.  The first two steps behave as claimed, but the second accept by
the same trainer on the now-`active` connection returns 404
`NotFound "Connection request not found."` (the lookup filters on
`status='pending'`), not a `StateConflictError` as the claim states. -/
theorem C7_counterexample :
    request_trainer_connection ⟨20, Role.client⟩ ⟨10, Role.trainer⟩
        ⟨Role.trainer, true, true, none⟩ 0 "hi" ⟨[], 1⟩ 1
      = Except.ok
          (⟨1, 10, 20, ConnStatus.pending, true, true, false, false, false, true,
              "hi", "", 1, none, none⟩,
           ⟨[⟨1, 10, 20, ConnStatus.pending, true, true, false, false, false, true,
              "hi", "", 1, none, none⟩], 2⟩)
    ∧ accept_connection_request ⟨10, Role.trainer⟩ 1
        ⟨[⟨1, 10, 20, ConnStatus.pending, true, true, false, false, false, true,
            "hi", "", 1, none, none⟩], 2⟩ 2
      = Except.ok
          (⟨1, 10, 20, ConnStatus.active, true, true, false, false, false, true,
              "hi", "", 1, some 2, none⟩,
           ⟨[⟨1, 10, 20, ConnStatus.active, true, true, false, false, false, true,
              "hi", "", 1, some 2, none⟩], 2⟩)
    ∧ accept_connection_request ⟨10, Role.trainer⟩ 1
        ⟨[⟨1, 10, 20, ConnStatus.active, true, true, false, false, false, true,
            "hi", "", 1, some 2, none⟩], 2⟩ 3
      = Except.error (ApiError.notFound "Connection request not found.") :=
  ⟨rfl, rfl, rfl⟩

/-- C7 amended: after a client's request the new connection is `pending`
with `requested_at` set and `connected_at` null; the named trainer's
accept makes it `active` and sets `connected_at`; a second accept by the
same trainer then fails with 404 `NotFound` ("Connection request not
found."), because the accept lookup filters on `status='pending'` — not
with a state-conflict error. -/
theorem C7_request_accept_scenario (clientU trainerU : UserRec) (tp : Profile)
    (tcount : Int) (msg : String) (db : ConnDB) (now1 now2 now3 : Nat)
    (hcr : clientU.role = Role.client) (htr : trainerU.role = Role.trainer)
    (hne : trainerU.id ≠ clientU.id)
    (hacc : can_accept_clients tp tcount = true)
    (hfresh : FreshIds db)
    (hnopair : ∀ ex ∈ db.conns, ¬(ex.trainer = trainerU.id ∧ ex.client = clientU.id)) :
    ∃ c1 db1 c2 db2,
      request_trainer_connection clientU trainerU tp tcount msg db now1
          = Except.ok (c1, db1)
      ∧ c1.status = ConnStatus.pending ∧ c1.requested_at = now1 ∧ c1.connected_at = none
      ∧ accept_connection_request trainerU c1.id db1 now2 = Except.ok (c2, db2)
      ∧ c2.status = ConnStatus.active ∧ c2.connected_at = some now2
      ∧ accept_connection_request trainerU c1.id db2 now3
          = Except.error (ApiError.notFound "Connection request not found.") := by
  refine ⟨⟨db.nextId, trainerU.id, clientU.id, ConnStatus.pending, true, true, false,
      false, false, true, msg, "", now1, none, none⟩,
    ⟨db.conns ++ [⟨db.nextId, trainerU.id, clientU.id, ConnStatus.pending, true, true,
      false, false, false, true, msg, "", now1, none, none⟩], db.nextId + 1⟩,
    ⟨db.nextId, trainerU.id, clientU.id, ConnStatus.active, true, true, false,
      false, false, true, msg, "", now1, some now2, none⟩,
    ConnDB.updateConn
      ⟨db.conns ++ [⟨db.nextId, trainerU.id, clientU.id, ConnStatus.pending, true, true,
        false, false, false, true, msg, "", now1, none, none⟩], db.nextId + 1⟩
      ⟨db.nextId, trainerU.id, clientU.id, ConnStatus.active, true, true, false,
        false, false, true, msg, "", now1, some now2, none⟩,
    ?req, rfl, rfl, rfl, ?acc1, rfl, rfl, ?acc2⟩
  case req =>
    have hfindnone : db.conns.find?
        (fun c => c.trainer = trainerU.id ∧ c.client = clientU.id) = none :=
      List.find?_eq_none.2 fun x hx => by simpa using hnopair x hx
    unfold request_trainer_connection
    rw [if_neg (by simp [hcr]), if_neg (by simp [htr]), if_neg (by simp [hacc]), hfindnone]
    unfold createConnection
    rw [if_neg (by simp [htr]), if_neg (by simp [hcr]), if_neg hne,
      if_neg (by
        simp only [List.any_eq_true, not_exists, not_and]
        intro x hx
        simpa using hnopair x hx)]
  case acc1 =>
    unfold accept_connection_request
    rw [if_neg (by simp [htr])]
    have h1 : db.conns.find? (fun c =>
        c.id = db.nextId ∧ c.trainer = trainerU.id ∧ c.status = ConnStatus.pending)
          = none :=
      List.find?_eq_none.2 fun x hx => by
        have := hfresh x hx
        simp only [decide_eq_true_eq, not_and]
        intro h
        omega
    rw [List.find?_append, h1, Option.none_or,
      List.find?_cons_of_pos _ (by simp)]
  case acc2 =>
    unfold accept_connection_request
    rw [if_neg (by simp [htr])]
    have h2 : (ConnDB.updateConn
        ⟨db.conns ++ [⟨db.nextId, trainerU.id, clientU.id, ConnStatus.pending, true, true,
          false, false, false, true, msg, "", now1, none, none⟩], db.nextId + 1⟩
        ⟨db.nextId, trainerU.id, clientU.id, ConnStatus.active, true, true, false,
          false, false, true, msg, "", now1, some now2, none⟩).conns.find?
        (fun c => c.id = db.nextId ∧ c.trainer = trainerU.id
          ∧ c.status = ConnStatus.pending) = none := by
      refine List.find?_eq_none.2 fun x hx => ?_
      simp only [ConnDB.updateConn, List.mem_map] at hx
      obtain ⟨a, ha, rfl⟩ := hx
      rcases List.mem_append.1 ha with ha | ha
      · have hlt := hfresh a ha
        have hne' : ¬ a.id = db.nextId := by omega
        rw [if_neg hne']
        simp [hne']
      · have : a = ⟨db.nextId, trainerU.id, clientU.id, ConnStatus.pending, true, true,
            false, false, false, true, msg, "", now1, none, none⟩ := by simpa using ha
        rw [this, if_pos rfl]
        simp
    rw [h2]

/-- Witness for C7: the scenario run from an empty connection table. -/
theorem C7_witness :
    ∃ c1 db1 c2 db2,
      request_trainer_connection ⟨20, Role.client⟩ ⟨10, Role.trainer⟩
          ⟨Role.trainer, true, true, none⟩ 0 "m" ⟨[], 1⟩ 4
        = Except.ok (c1, db1)
      ∧ c1.status = ConnStatus.pending ∧ c1.requested_at = 4 ∧ c1.connected_at = none
      ∧ accept_connection_request ⟨10, Role.trainer⟩ c1.id db1 5 = Except.ok (c2, db2)
      ∧ c2.status = ConnStatus.active ∧ c2.connected_at = some 5
      ∧ accept_connection_request ⟨10, Role.trainer⟩ c1.id db2 6
          = Except.error (ApiError.notFound "Connection request not found.") :=
  C7_request_accept_scenario ⟨20, Role.client⟩ ⟨10, Role.trainer⟩
    ⟨Role.trainer, true, true, none⟩ 0 "m" ⟨[], 1⟩ 4 5 6
    rfl rfl (by decide) (by decide)
    (fun c hc => absurd hc (List.not_mem_nil c))
    (fun ex hex => absurd hex (List.not_mem_nil ex))

/-! ## C8 -/

/-- C8 counterexample: the connection is in the terminal status `ended`,
yet the client's `update_connection_permissions` call succeeds (here
turning off `can_view_workouts`), where the claim says the call succeeds
only while the connection is in a non-terminal status. -/
theorem C8_counterexample :
    update_connection_permissions ⟨20, Role.client⟩ 1
        ⟨some false, none, none, none, none, none⟩
        ⟨[⟨1, 10, 20, ConnStatus.ended, true, true, false, false, false, true,
            "", "", 0, some 1, some 2⟩], 2⟩
      = Except.ok
          (⟨1, 10, 20, ConnStatus.ended, false, true, false, false, false, true,
              "", "", 0, some 1, some 2⟩,
           ⟨[⟨1, 10, 20, ConnStatus.ended, false, true, false, false, false, true,
              "", "", 0, some 1, some 2⟩], 2⟩) := by
  rfl

/-- C8 amended: `update_connection_permissions` succeeds exactly when the
caller has the client role and is the client on the record with that id —
in *any* status, terminal ones included (the lookup has no status
filter); a trainer's attempt fails with the 403 authorization error, and
permission flags not supplied in the request retain their prior values. -/
theorem C8_update_permissions (user : UserRec) (connection_id : Nat)
    (flags : PermFlags) (db : ConnDB) :
    (user.role ≠ Role.client →
      update_connection_permissions user connection_id flags db
        = Except.error (ApiError.forbidden "Only clients can update permissions."))
    ∧ (user.role = Role.client →
        (∀ c, db.conns.find?
            (fun c => c.id = connection_id ∧ c.client = user.id) = some c →
          update_connection_permissions user connection_id flags db
            = Except.ok (applyPermFlags c flags, db.updateConn (applyPermFlags c flags))
          ∧ (flags.can_view_workouts = none →
              (applyPermFlags c flags).can_view_workouts = c.can_view_workouts)
          ∧ (flags.can_assign_workouts = none →
              (applyPermFlags c flags).can_assign_workouts = c.can_assign_workouts)
          ∧ (flags.can_view_nutrition = none →
              (applyPermFlags c flags).can_view_nutrition = c.can_view_nutrition)
          ∧ (flags.can_view_progress_photos = none →
              (applyPermFlags c flags).can_view_progress_photos = c.can_view_progress_photos)
          ∧ (flags.can_view_body_metrics = none →
              (applyPermFlags c flags).can_view_body_metrics = c.can_view_body_metrics)
          ∧ (flags.can_comment_workouts = none →
              (applyPermFlags c flags).can_comment_workouts = c.can_comment_workouts))
        ∧ (db.conns.find?
            (fun c => c.id = connection_id ∧ c.client = user.id) = none →
          update_connection_permissions user connection_id flags db
            = Except.error (ApiError.notFound "Connection not found."))) := by
  refine ⟨fun hrole => ?_, fun hrole => ⟨fun c hfind => ?_, fun hfind => ?_⟩⟩
  · unfold update_connection_permissions
    rw [if_pos hrole]
  · unfold update_connection_permissions
    rw [if_neg (by simp [hrole]), hfind]
    refine ⟨rfl, ?_, ?_, ?_, ?_, ?_, ?_⟩ <;>
      intro h <;> simp [applyPermFlags, h]
  · unfold update_connection_permissions
    rw [if_neg (by simp [hrole]), hfind]

/-- Witness for C8: the client flips one flag on a `pending` connection;
the five unsupplied flags keep their stored values. -/
theorem C8_witness :
    update_connection_permissions ⟨20, Role.client⟩ 1
        ⟨none, none, some true, none, none, none⟩
        ⟨[⟨1, 10, 20, ConnStatus.pending, true, true, false, false, false, true,
            "", "", 0, none, none⟩], 2⟩
      = Except.ok
          (⟨1, 10, 20, ConnStatus.pending, true, true, true, false, false, true,
              "", "", 0, none, none⟩,
           ⟨[⟨1, 10, 20, ConnStatus.pending, true, true, true, false, false, true,
              "", "", 0, none, none⟩], 2⟩) :=
  ((C8_update_permissions ⟨20, Role.client⟩ 1
      ⟨none, none, some true, none, none, none⟩
      ⟨[⟨1, 10, 20, ConnStatus.pending, true, true, false, false, false, true,
          "", "", 0, none, none⟩], 2⟩).2 rfl).1
    ⟨1, 10, 20, ConnStatus.pending, true, true, false, false, false, true,
        "", "", 0, none, none⟩ rfl |>.1

/-! ## C9 -/

/-- How one request entry resolves in `save_ai_workout`'s loop: `none` when
the `exercise_id` key is absent or no such exercise exists (the `continue`
path), otherwise the created `ExerciseLog` row. -/
def resolveAIExercise (exerciseExists : Nat → Bool) (ex : AIExerciseReq) :
    Option AIExerciseLogRow :=
  match ex.exercise_id with
  | none => none
  | some eid =>
    if exerciseExists eid then
      some { exercise := eid, order := ex.order, sets_data := []
             target_sets := ex.target_sets, target_reps := ex.target_reps
             target_weight := none, rest_seconds := ex.rest_seconds
             notes := ex.notes }
    else none

theorem buildAIExerciseLogs_foldl (exerciseExists : Nat → Bool)
    (exercises : List AIExerciseReq) (acc : List AIExerciseLogRow) :
    exercises.foldl
      (fun acc ex =>
        match ex.exercise_id with
        | none => acc
        | some eid =>
          if exerciseExists eid then
            acc ++ [{ exercise := eid, order := ex.order, sets_data := []
                      target_sets := ex.target_sets, target_reps := ex.target_reps
                      target_weight := none, rest_seconds := ex.rest_seconds
                      notes := ex.notes }]
          else acc) acc
    = acc ++ exercises.filterMap (resolveAIExercise exerciseExists) := by
  induction exercises generalizing acc with
  | nil => simp
  | cons ex t ih =>
    cases hid : ex.exercise_id with
    | none => simp [List.foldl_cons, List.filterMap_cons, resolveAIExercise, hid, ih]
    | some eid =>
      by_cases he : exerciseExists eid <;>
        simp [List.foldl_cons, List.filterMap_cons, resolveAIExercise, hid, he, ih]

theorem buildAIExerciseLogs_eq (exerciseExists : Nat → Bool)
    (exercises : List AIExerciseReq) :
    buildAIExerciseLogs exerciseExists exercises
      = exercises.filterMap (resolveAIExercise exerciseExists) := by
  unfold buildAIExerciseLogs
  simpa using buildAIExerciseLogs_foldl exerciseExists exercises []

/-- C9 counterexample: a plan whose sole exercise references a nonexistent
exercise id (no exercise resolves).  The claim requires the save to fail
and persist nothing; instead the call succeeds and persists a
`WorkoutLog` row with zero exercise logs. -/
theorem C9_counterexample :
    save_ai_workout 1 (fun _ => false) none "" [⟨some 99, 1, 3, "8-12", 90, ""⟩] 0 []
      = Except.ok [⟨1, "AI Generated Workout", "", 0, false, []⟩] := by
  rfl

/-- C9 amended: `save_ai_workout` validates only that the exercise list is
non-empty — an empty plan is rejected with 400 before anything is
persisted; otherwise exactly one `WorkoutLog` row is appended whose
exercise logs are exactly the entries with a resolvable exercise id, in
order, while entries with a missing or unresolvable id are silently
skipped and the operation still reports success. -/
theorem C9_save_ai_workout (user : Nat) (exerciseExists : Nat → Bool)
    (workout_name : Option String) (description : String)
    (exercises : List AIExerciseReq) (today : Nat) (db : List AIWorkoutRow) :
    (exercises = [] →
      save_ai_workout user exerciseExists workout_name description exercises today db
        = Except.error (ApiError.badRequest "No exercises provided."))
    ∧ (exercises ≠ [] →
      save_ai_workout user exerciseExists workout_name description exercises today db
        = Except.ok (db ++
            [{ user := user
               name := match workout_name with
                 | none => "AI Generated Workout"
                 | some n => if n = "" then "AI Generated Workout" else n
               notes := description, workout_date := today, is_template := false
               exercise_logs := exercises.filterMap (resolveAIExercise exerciseExists) }])) := by
  constructor
  · intro h
    unfold save_ai_workout
    rw [if_pos h]
  · intro h
    unfold save_ai_workout
    rw [if_neg h, buildAIExerciseLogs_eq]

/-- Witness for C9: a two-entry plan where only exercise id 5 resolves —
the saved workout contains exactly that one exercise log. -/
theorem C9_witness :
    ([⟨some 5, 1, 3, "10", 60, ""⟩, ⟨some 99, 2, 3, "10", 60, ""⟩]
        : List AIExerciseReq) ≠ []
    ∧ save_ai_workout 7 (fun i => i == 5) (some "Push") "d"
        [⟨some 5, 1, 3, "10", 60, ""⟩, ⟨some 99, 2, 3, "10", 60, ""⟩] 2 []
      = Except.ok [⟨7, "Push", "d", 2, false, [⟨5, 1, [], 3, "10", none, 60, ""⟩]⟩] := by
  refine ⟨by simp, ?_⟩
  exact (C9_save_ai_workout 7 (fun i => i == 5) (some "Push") "d"
      [⟨some 5, 1, 3, "10", 60, ""⟩, ⟨some 99, 2, 3, "10", 60, ""⟩] 2 []).2 (by simp)

/-! ## C1 -/

/-- The `unique_together` key of a `PersonalRecord` row. -/
def prRecKey (r : PRRecord) : Nat × Nat × PRType := (r.user, r.exercise, r.pr_type)

/-- The `unique_together = ['user', 'exercise', 'pr_type']` constraint:
no two rows share a key. -/
def NoDupKeys (store : List PRRecord) : Prop := (store.map prRecKey).Nodup

theorem prKey_eq_true_iff (user exercise : Nat) (t : PRType) (r : PRRecord) :
    prKey user exercise t r = true ↔ prRecKey r = (user, exercise, t) := by
  simp [prKey, prRecKey, Prod.ext_iff]

theorem noDupKeys_append_new (store : List PRRecord) (user exercise : Nat)
    (t : PRType) (r : PRRecord)
    (hfind : store.find? (prKey user exercise t) = none)
    (hkey : prRecKey r = (user, exercise, t))
    (hnd : NoDupKeys store) : NoDupKeys (store ++ [r]) := by
  unfold NoDupKeys at *
  rw [List.map_append, List.nodup_append]
  refine ⟨hnd, by simp, ?_⟩
  intro k hk hk'
  obtain ⟨s, hs, rfl⟩ := List.mem_map.1 hk
  have hkk : prRecKey s = (user, exercise, t) := by
    simp only [List.map_cons, List.map_nil, List.mem_singleton] at hk'
    rw [hk', hkey]
  have hnot : ¬ prKey user exercise t s = true := by
    simpa using List.find?_eq_none.1 hfind s hs
  exact hnot ((prKey_eq_true_iff user exercise t s).2 hkk)

theorem noDupKeys_updatePR (store : List PRRecord) (user exercise : Nat)
    (t : PRType) (r' : PRRecord) (hkey : prRecKey r' = (user, exercise, t))
    (hnd : NoDupKeys store) : NoDupKeys (updatePR store user exercise t r') := by
  unfold NoDupKeys updatePR at *
  rw [List.map_map]
  have : ∀ s ∈ store,
      (prRecKey ∘ fun r => if prKey user exercise t r then r' else r) s = prRecKey s := by
    intro s _
    by_cases h : prKey user exercise t s = true
    · simp only [Function.comp_apply, if_pos h]
      rw [hkey, ((prKey_eq_true_iff user exercise t s).1 h).symm]
    · simp only [Function.comp_apply, h]
      simp [h]
  rw [List.map_congr_left this]
  exact hnd

theorem check_weight_pr_noDup (user workout_log_id workout_date exercise : Nat)
    (v : Int) (store achieved : List PRRecord) (hnd : NoDupKeys store) :
    NoDupKeys (check_weight_pr user workout_log_id workout_date exercise v
      store achieved).1 := by
  unfold check_weight_pr
  split
  · split
    next hfind =>
      exact noDupKeys_append_new store user exercise PRType.max_weight _ hfind rfl hnd
    next pr hfind =>
      have hk := (prKey_eq_true_iff user exercise PRType.max_weight pr).1
        (List.find?_some hfind)
      split
      · exact noDupKeys_updatePR store user exercise PRType.max_weight _ hk hnd
      · exact hnd
  · exact hnd

theorem check_volume_pr_noDup (user workout_log_id workout_date exercise : Nat)
    (v : Int) (store achieved : List PRRecord) (hnd : NoDupKeys store) :
    NoDupKeys (check_volume_pr user workout_log_id workout_date exercise v
      store achieved).1 := by
  unfold check_volume_pr
  split
  · split
    next hfind =>
      exact noDupKeys_append_new store user exercise PRType.max_volume _ hfind rfl hnd
    next pr hfind =>
      have hk := (prKey_eq_true_iff user exercise PRType.max_volume pr).1
        (List.find?_some hfind)
      split
      · exact noDupKeys_updatePR store user exercise PRType.max_volume _ hk hnd
      · exact hnd
  · exact hnd

theorem processExerciseLog_noDup (user workout_log_id workout_date : Nat)
    (st : List PRRecord × List PRRecord) (elog : ExerciseLogM)
    (hnd : NoDupKeys st.1) :
    NoDupKeys (processExerciseLog user workout_log_id workout_date st elog).1 := by
  unfold processExerciseLog
  exact check_volume_pr_noDup _ _ _ _ _ _ _
    (check_weight_pr_noDup _ _ _ _ _ _ _ hnd)

theorem check_for_prs_noDup (user workout_log_id workout_date : Nat)
    (elogs : List ExerciseLogM) (store : List PRRecord) (hnd : NoDupKeys store) :
    NoDupKeys (check_for_prs user workout_log_id workout_date elogs store).1 := by
  unfold check_for_prs
  suffices h : ∀ st : List PRRecord × List PRRecord, NoDupKeys st.1 →
      NoDupKeys ((elogs.foldl (processExerciseLog user workout_log_id workout_date) st)).1 by
    exact h (store, []) hnd
  induction elogs with
  | nil => intro st h; exact h
  | cons e t ih =>
    intro st h
    exact ih _ (processExerciseLog_noDup _ _ _ st e h)

/-- C1: per exercise log of a created workout, the engine behaves as
claimed for `pr_type = max_weight` — with no stored
`(user, exercise, max_weight)` row and `MaxWeight > 0`, exactly one such
row is created (count 1) and reported; with a stored row, it is updated
in place (weight, workout_log, date_achieved) and reported iff the new
value is strictly greater, an equal or lower value leaving the store and
the report untouched — independently and identically for
`pr_type = max_volume` using the volume; the two blocks compose to the
per-log step, and no duplicate `(user, exercise, pr_type)` row is ever
created by a whole `check_for_prs` run. -/
theorem C1_personal_record_engine (user workout_log_id workout_date exercise : Nat)
    (v : Int) (store achieved : List PRRecord) (elog : ExerciseLogM)
    (elogs : List ExerciseLogM) (hnd : NoDupKeys store) :
    (store.find? (prKey user exercise PRType.max_weight) = none → v > 0 →
      check_weight_pr user workout_log_id workout_date exercise v store achieved
        = (store ++ [⟨user, exercise, PRType.max_weight, some v, none,
              some workout_log_id, workout_date⟩],
           achieved ++ [⟨user, exercise, PRType.max_weight, some v, none,
              some workout_log_id, workout_date⟩])
      ∧ (store ++ ([⟨user, exercise, PRType.max_weight, some v, none,
              some workout_log_id, workout_date⟩] : List PRRecord)).countP
            (prKey user exercise PRType.max_weight) = 1)
    ∧ (∀ pr, store.find? (prKey user exercise PRType.max_weight) = some pr →
        v > 0 →
        (v > pr.weight.getD 0 →
          check_weight_pr user workout_log_id workout_date exercise v store achieved
            = (updatePR store user exercise PRType.max_weight
                 { pr with weight := some v
                           workout_log := some workout_log_id
                           date_achieved := workout_date },
               achieved ++ [{ pr with weight := some v
                                      workout_log := some workout_log_id
                                      date_achieved := workout_date }]))
        ∧ (v ≤ pr.weight.getD 0 →
          check_weight_pr user workout_log_id workout_date exercise v store achieved
            = (store, achieved)))
    ∧ (v ≤ 0 →
      check_weight_pr user workout_log_id workout_date exercise v store achieved
        = (store, achieved))
    ∧ (store.find? (prKey user exercise PRType.max_volume) = none → v > 0 →
      check_volume_pr user workout_log_id workout_date exercise v store achieved
        = (store ++ [⟨user, exercise, PRType.max_volume, none, some v,
              some workout_log_id, workout_date⟩],
           achieved ++ [⟨user, exercise, PRType.max_volume, none, some v,
              some workout_log_id, workout_date⟩])
      ∧ (store ++ ([⟨user, exercise, PRType.max_volume, none, some v,
              some workout_log_id, workout_date⟩] : List PRRecord)).countP
            (prKey user exercise PRType.max_volume) = 1)
    ∧ (∀ pr, store.find? (prKey user exercise PRType.max_volume) = some pr →
        v > 0 →
        (v > pr.volume.getD 0 →
          check_volume_pr user workout_log_id workout_date exercise v store achieved
            = (updatePR store user exercise PRType.max_volume
                 { pr with volume := some v
                           workout_log := some workout_log_id
                           date_achieved := workout_date },
               achieved ++ [{ pr with volume := some v
                                      workout_log := some workout_log_id
                                      date_achieved := workout_date }]))
        ∧ (v ≤ pr.volume.getD 0 →
          check_volume_pr user workout_log_id workout_date exercise v store achieved
            = (store, achieved)))
    ∧ (v ≤ 0 →
      check_volume_pr user workout_log_id workout_date exercise v store achieved
        = (store, achieved))
    ∧ processExerciseLog user workout_log_id workout_date (store, achieved) elog
        = check_volume_pr user workout_log_id workout_date elog.exercise
            (calculate_volume elog.sets_data)
            (check_weight_pr user workout_log_id workout_date elog.exercise
              (get_max_weight elog.sets_data) store achieved).1
            (check_weight_pr user workout_log_id workout_date elog.exercise
              (get_max_weight elog.sets_data) store achieved).2
    ∧ NoDupKeys (check_for_prs user workout_log_id workout_date elogs store).1 := by
  refine ⟨fun hfind hv => ⟨?_, ?_⟩, fun pr hfind hv => ⟨fun hgt => ?_, fun hle => ?_⟩,
    fun hle => ?_, fun hfind hv => ⟨?_, ?_⟩, fun pr hfind hv => ⟨fun hgt => ?_, fun hle => ?_⟩,
    fun hle => ?_, rfl,
    check_for_prs_noDup user workout_log_id workout_date elogs store hnd⟩
  · unfold check_weight_pr
    rw [if_pos hv, hfind]
  · rw [List.countP_append]
    have h0 : store.countP (prKey user exercise PRType.max_weight) = 0 :=
      List.countP_eq_zero.2 fun a ha => by
        simpa using List.find?_eq_none.1 hfind a ha
    rw [h0]
    simp [prKey]
  · unfold check_weight_pr
    rw [if_pos hv, hfind]
    dsimp only
    rw [if_pos hgt]
  · unfold check_weight_pr
    rw [if_pos hv, hfind]
    dsimp only
    rw [if_neg (not_lt.2 hle)]
  · unfold check_weight_pr
    rw [if_neg (not_lt.2 hle)]
  · unfold check_volume_pr
    rw [if_pos hv, hfind]
  · rw [List.countP_append]
    have h0 : store.countP (prKey user exercise PRType.max_volume) = 0 :=
      List.countP_eq_zero.2 fun a ha => by
        simpa using List.find?_eq_none.1 hfind a ha
    rw [h0]
    simp [prKey]
  · unfold check_volume_pr
    rw [if_pos hv, hfind]
    dsimp only
    rw [if_pos hgt]
  · unfold check_volume_pr
    rw [if_pos hv, hfind]
    dsimp only
    rw [if_neg (not_lt.2 hle)]
  · unfold check_volume_pr
    rw [if_neg (not_lt.2 hle)]

/-- Witness for C1, the spec's scenario: a first-ever log of exercise 3
with one completed set of weight 200 creates a `max_weight` PR worth 200
and reports it. -/
theorem C1_witness :
    NoDupKeys []
    ∧ get_max_weight [⟨some 1, some 200, some true⟩] > 0
    ∧ check_weight_pr 1 11 5 3 (get_max_weight [⟨some 1, some 200, some true⟩]) [] []
        = ([⟨1, 3, PRType.max_weight, some 200, none, some 11, 5⟩],
           [⟨1, 3, PRType.max_weight, some 200, none, some 11, 5⟩]) := by
  refine ⟨by simp [NoDupKeys], by decide, ?_⟩
  exact ((C1_personal_record_engine 1 11 5 3
      (get_max_weight [⟨some 1, some 200, some true⟩]) [] [] ⟨3, []⟩ []
      (by simp [NoDupKeys])).1 rfl (by decide)).1

end FitnessApp
